import Mathlib

/-!
Verification of the ecs_it access-control core against its design spec.

The embedding mirrors the Rust sources:
* `AccessorState` and its operations come from `src/storage/accessor.rs` and
  `src/storage/mod.rs` (`init_read_access`, `init_write_access`,
  `drop_read_access`, `drop_write_access`).
* Guard construction comes from `src/storage/storage_guard.rs`.
* The warehouse capacity logic comes from `src/warehouse.rs`
  (`lazy_lengthen`, `capacity_check`).
* Entity bookkeeping comes from `src/entity.rs` and `src/world.rs`.
Machine integers (`u16`, `usize`) are modelled as `Nat`; the operations never
approach the overflow bounds in the scenarios considered, and subtraction
sites carry explicit positivity hypotheses matching the code's underflow
panics.
-/

namespace EcsIt

/-- `AccessorState` from `src/storage/accessor.rs`: `readers` counts currently
reading readers (not waiters), `writers_waiting` counts slept writers (not the
0-or-1 active writer). -/
structure AccessorState where
  readers : Nat
  read_allowed : Bool
  write_allowed : Bool
  writers_waiting : Nat
deriving Repr, DecidableEq

/-- The state built by `Accessor::new` in `src/storage/accessor.rs`. -/
def initialAccessorState : AccessorState :=
  { readers := 0, read_allowed := true, write_allowed := true, writers_waiting := 0 }

/-- Body of `Storage::init_read_access` (`src/storage/mod.rs`) once the
condvar wait `wait_while !read_allowed` has returned, i.e. once
`read_allowed = true` holds: set `write_allowed = false` and increment
`readers`. -/
def initReadAccessBody (s : AccessorState) : AccessorState :=
  { s with write_allowed := false, readers := s.readers + 1 }

/-- First half of `Storage::init_write_access` (`src/storage/mod.rs`): the
caller increments `writers_waiting` before blocking on the writer condvar. -/
def initWriteAccessEnter (s : AccessorState) : AccessorState :=
  { s with writers_waiting := s.writers_waiting + 1 }

/-- Second half of `Storage::init_write_access` (`src/storage/mod.rs`), run
once the condvar wait `wait_while !write_allowed` has returned: set
`read_allowed = false`, `write_allowed = false`, decrement `writers_waiting`. -/
def initWriteAccessBody (s : AccessorState) : AccessorState :=
  { s with read_allowed := false, write_allowed := false,
           writers_waiting := s.writers_waiting - 1 }

/-- State update of `Storage::drop_read_access` (`src/storage/mod.rs`):
decrement `readers`; if the decremented count is zero, set
`write_allowed = true`; `read_allowed` is deliberately left untouched. -/
def dropReadAccess (s : AccessorState) : AccessorState :=
  if s.readers - 1 = 0 then
    { s with readers := s.readers - 1, write_allowed := true }
  else
    { s with readers := s.readers - 1 }

/-- State update of `Storage::drop_write_access` (`src/storage/mod.rs`): both
flags are reopened. -/
def dropWriteAccess (s : AccessorState) : AccessorState :=
  { s with write_allowed := true, read_allowed := true }

/-- The condvar notification a release performs: `writer_cvar.notify_one()`
or `reader_cvar.notify_all()`. -/
inductive WakeAction where
  | notifyOneWriter : WakeAction
  | notifyAllReaders : WakeAction
deriving Repr, DecidableEq

/-- The wake-up rule as the spec words it: wake one writer when
`writers_waiting > 0` in the given state, else wake all readers. -/
def wakeDecision (s : AccessorState) : WakeAction :=
  if 0 < s.writers_waiting then WakeAction.notifyOneWriter
  else WakeAction.notifyAllReaders

/-- `Storage::drop_read_access` in full (`src/storage/mod.rs`): the state
update followed by the writer-prioritization branch
`if writers_waiting > 0 { writer_cvar.notify_one() } else { reader_cvar.notify_all() }`,
which the code evaluates on the post-update state. -/
def dropReadAccessWake (s : AccessorState) : AccessorState × WakeAction :=
  let s1 := dropReadAccess s
  (s1, if 0 < s1.writers_waiting then WakeAction.notifyOneWriter
       else WakeAction.notifyAllReaders)

/-- `Storage::drop_write_access` in full (`src/storage/mod.rs`): the state
update followed by the same writer-prioritization branch. -/
def dropWriteAccessWake (s : AccessorState) : AccessorState × WakeAction :=
  let s1 := dropWriteAccess s
  (s1, if 0 < s1.writers_waiting then WakeAction.notifyOneWriter
       else WakeAction.notifyAllReaders)

/-- One storage's accessor state together with ghost holder counts:
`readerHolds` is the number of threads currently holding shared access
(each completed `init_read_access` without its matching release) and
`writerHolds` the number holding exclusive access. The ghost fields record
which acquisitions have not yet been released; the code tracks holding only
implicitly in control flow between acquisition and guard drop. -/
structure AccSys where
  acc : AccessorState
  readerHolds : Nat
  writerHolds : Nat
deriving Repr, DecidableEq

/-- The initial system: `Accessor::new`'s state, no holders. -/
def initSys : AccSys :=
  { acc := initialAccessorState, readerHolds := 0, writerHolds := 0 }

/-- Interleaving semantics of the accessor protocol. Each constructor is one
atomic mutex-protected section of `src/storage/mod.rs`:
* `acquireRead` — `init_read_access` completes; the condvar wait only returns
  while `read_allowed` holds.
* `acquireWriteEnter` — a writer increments `writers_waiting` and blocks.
* `acquireWriteComplete` — a blocked writer's condvar wait returns while
  `write_allowed` holds; it closes both flags and leaves the wait queue.
* `releaseRead` — `drop_read_access`, invoked by a thread that holds shared
  access (once per guard drop).
* `releaseWrite` — `drop_write_access`, invoked by the thread holding
  exclusive access (once per guard drop). -/
inductive AccStep : AccSys → AccSys → Prop where
  | acquireRead (s : AccSys) (h : s.acc.read_allowed = true) :
      AccStep s { s with acc := initReadAccessBody s.acc,
                         readerHolds := s.readerHolds + 1 }
  | acquireWriteEnter (s : AccSys) :
      AccStep s { s with acc := initWriteAccessEnter s.acc }
  | acquireWriteComplete (s : AccSys) (hw : s.acc.write_allowed = true)
      (hq : 0 < s.acc.writers_waiting) :
      AccStep s { s with acc := initWriteAccessBody s.acc,
                         writerHolds := s.writerHolds + 1 }
  | releaseRead (s : AccSys) (h : 0 < s.readerHolds) :
      AccStep s { s with acc := dropReadAccess s.acc,
                         readerHolds := s.readerHolds - 1 }
  | releaseWrite (s : AccSys) (h : 0 < s.writerHolds) :
      AccStep s { s with acc := dropWriteAccess s.acc,
                         writerHolds := s.writerHolds - 1 }

/-- States reachable from the initial `Open` state by any operation
sequence. -/
inductive Reachable : AccSys → Prop where
  | init : Reachable initSys
  | step {s t : AccSys} : Reachable s → AccStep s t → Reachable t

/-- The inductive invariant of the accessor protocol. -/
def AccInv (s : AccSys) : Prop :=
  s.readerHolds = s.acc.readers ∧
  s.writerHolds ≤ 1 ∧
  (0 < s.writerHolds → s.acc.readers = 0) ∧
  (0 < s.writerHolds → s.acc.read_allowed = false ∧ s.acc.write_allowed = false) ∧
  (0 < s.acc.readers → s.acc.write_allowed = false) ∧
  (s.acc.read_allowed = false → 0 < s.writerHolds)

/-- `ImmutableStorageGuard::new` from `src/storage/storage_guard.rs`: the
constructor only stores the `Arc<Storage>` it is handed; it performs no
operation on the accessor state. (`Storage::init_read_access` is declared in
`src/storage/mod.rs` with the doc comment "Called internally whenever a
ImmutStorageGuard is instantiated", but no code in the crate calls it.)
The function returns the accessor state of the storage unchanged. -/
def immutableStorageGuardNew (s : AccessorState) : AccessorState := s

/-- `MutableStorageGuard::new` from `src/storage/storage_guard.rs`: likewise
only stores the `Arc<Storage>`; `init_write_access` is never called. -/
def mutableStorageGuardNew (s : AccessorState) : AccessorState := s

/-- Lengths and slot contents of one `Storage<T>` vec together with its
`StorageBox.capacity` counter (`src/warehouse.rs`). Slot payloads are
modelled at `Option Nat`. -/
structure StorageRec where
  slots : List (Option Nat)
  capacity : Nat
deriving Repr, DecidableEq

/-- Modelled from the spec: `MutableStorageGuard::register_new_entities(n)`
is called by `Warehouse::capacity_check` but is not defined anywhere in the
sources; per the spec's lazy-growth description it lengthens the storage vec
by `n`, padding with empty slots. -/
def registerNewEntities (slots : List (Option Nat)) (n : Nat) : List (Option Nat) :=
  slots ++ List.replicate n none

/-- `Warehouse::lazy_lengthen` (`src/warehouse.rs`): the registry-wide
capacity counter grows by the number of new entity ids. -/
def lazyLengthen (warehouseCap num_new_ents : Nat) : Nat :=
  warehouseCap + num_new_ents

/-- `Warehouse::capacity_check` (`src/warehouse.rs`) for one storage:
`assert!(storage_cap <= warehouse_cap)` (`none` = assertion panic), then if
`new_entity_count = warehouse_cap - storage_cap > 0`, lengthen the storage
vec by `new_entity_count` via `register_new_entities` and then run
`capacity.fetch_add(1)` — the code adds 1, not `new_entity_count`. -/
def capacityCheck (warehouseCap : Nat) (st : StorageRec) : Option StorageRec :=
  if st.capacity ≤ warehouseCap then
    if 0 < warehouseCap - st.capacity then
      some { slots := registerNewEntities st.slots (warehouseCap - st.capacity),
             capacity := st.capacity + 1 }
    else
      some st
  else
    none

/-- `Entities` from `src/entity.rs`: an id counter plus the recycling list
(the commented-out `active_entities` set is omitted as the code leaves it
disabled). -/
structure Entities where
  num_entities : Nat
  dead_entities : List Nat
deriving Repr, DecidableEq

/-- `Entities::new` from `src/entity.rs`. -/
def entitiesNew : Entities := { num_entities := 0, dead_entities := [] }

/-- `Entities::get_next_id` from `src/entity.rs`: `dead_entities.pop()`
(the last element of the Vec) if available, else `num_entities`. -/
def getNextId (e : Entities) : Nat × Entities :=
  match e.dead_entities.getLast? with
  | some id => (id, { e with dead_entities := e.dead_entities.dropLast })
  | none => (e.num_entities, e)

/-- `Entities::new_entity_id` from `src/entity.rs`: take the next id (fresh
or recycled) and increment `num_entities`. -/
def newEntityId (e : Entities) : Nat × Entities :=
  let r := getNextId e
  (r.1, { r.2 with num_entities := r.2.num_entities + 1 })

/-- `Entities::rm_entity` from `src/entity.rs`: the whole body is commented
out; it returns `false` and changes nothing. -/
def entitiesRmEntity (e : Entities) (_ent : Nat) : Bool × Entities :=
  (false, e)

/-- The `World` state (`src/world.rs`): the entity allocator plus the
warehouse map from type id (modelled as `Nat`) to the registered storage's
slot vec. -/
structure WorldModel where
  entities : Entities
  storages : List (Nat × List (Option Nat))
deriving Repr, DecidableEq

/-- `World::new` from `src/world.rs`. -/
def worldNew : WorldModel := { entities := entitiesNew, storages := [] }

/-- `Storage::new` from `src/storage.rs`: `Vec::new()` followed by
`fill_with(|| None)`, which fills the vec's zero existing elements — the new
storage has zero slots. (The `Storage::<T>::new` variant in
`src/storage/mod.rs` builds `HashMap::with_capacity(estimate)`, whose key
set is likewise empty.) -/
def storageNew : List (Option Nat) := []

/-- `World::create_entity` from `src/world.rs`: the id-allocation body is
commented out ("//TODO"); the function returns `0` and leaves the world
untouched. -/
def createEntity (w : WorldModel) : Nat × WorldModel := (0, w)

/-- `World::rm_entity` from `src/world.rs`: delegates to
`Entities::rm_entity`, which is a no-op. -/
def worldRmEntity (w : WorldModel) (ent : Nat) : WorldModel :=
  { w with entities := (entitiesRmEntity w.entities ent).2 }

/-- `World::register_component` from `src/world.rs`: panic (modelled as
`Except.error`) if the type id is already a key of the storages map,
otherwise insert a fresh `Storage` under the type id. -/
def registerComponent (w : WorldModel) (tid : Nat) : Except String WorldModel :=
  if (w.storages.lookup tid).isSome then
    Except.error "attempted to register the same component type twice"
  else
    Except.ok { w with storages := (tid, storageNew) :: w.storages }

/-- Worlds reachable through the public `World` API. `storagesChange`
covers every operation that goes through a storage guard
(`add_component`, `rm_component`, `maintain_ecs`, checkout growth): none of
them touch the entity allocator. -/
inductive WorldReachable : WorldModel → Prop where
  | init : WorldReachable worldNew
  | create {w : WorldModel} :
      WorldReachable w → WorldReachable (createEntity w).2
  | remove {w : WorldModel} (ent : Nat) :
      WorldReachable w → WorldReachable (worldRmEntity w ent)
  | registerOk {w w1 : WorldModel} (tid : Nat) :
      WorldReachable w → registerComponent w tid = Except.ok w1 →
      WorldReachable w1
  | storagesChange {w : WorldModel} (ss : List (Nat × List (Option Nat))) :
      WorldReachable w → WorldReachable { w with storages := ss }

/-- The contents of one `Storage<T>`'s inner `HashMap<Entity, T>`
(`src/storage/mod.rs`), as an association list keyed by entity id. -/
def guardGet {α : Type} (m : List (Nat × α)) (ent : Nat) : Option α :=
  m.lookup ent

/-- Modelled from the spec: `MutableStorageGuard::insert(id, value)` is
called by `World::add_component` but is not defined anywhere in the sources;
per the spec it replaces the value at `id` and returns the prior value if
any. -/
def guardInsert {α : Type} (m : List (Nat × α)) (ent : Nat) (v : α) :
    Option α × List (Nat × α) :=
  (m.lookup ent, (ent, v) :: m.filter (fun p => p.1 != ent))

/-- Modelled from the spec: `MutableStorageGuard::remove(id)` is called by
`World::rm_component` but is not defined anywhere in the sources; per the
spec it clears the value at `id` and returns the prior value if any. -/
def guardRemove {α : Type} (m : List (Nat × α)) (ent : Nat) :
    Option α × List (Nat × α) :=
  (m.lookup ent, m.filter (fun p => p.1 != ent))

/-- `World::add_component` from `src/world.rs`: checkout the storage for
write, insert, return the prior component. -/
def addComponent {α : Type} (m : List (Nat × α)) (ent : Nat) (comp : α) :
    Option α × List (Nat × α) :=
  guardInsert m ent comp

/-- `World::rm_component` from `src/world.rs`: checkout the storage for
write, remove, return the prior component. -/
def rmComponent {α : Type} (m : List (Nat × α)) (ent : Nat) :
    Option α × List (Nat × α) :=
  guardRemove m ent

theorem accInv_init : AccInv initSys := by
  refine ⟨rfl, ?_, ?_, ?_, ?_, ?_⟩ <;> simp [initSys, initialAccessorState]

theorem accInv_step {s t : AccSys} (hs : AccInv s) (st : AccStep s t) : AccInv t := by
  cases st with
  | acquireRead h =>
      obtain ⟨⟨r, ra, wa, ww⟩, rh, wh⟩ := s
      simp only [AccInv, initReadAccessBody] at hs ⊢
      simp only at h
      obtain ⟨f, a, b, c, d, e⟩ := hs
      subst h
      refine ⟨by omega, a, ?_, ?_, ?_, ?_⟩
      · intro hw; exact absurd (c hw).1 (by simp)
      · intro hw; exact absurd (c hw).1 (by simp)
      · intro _; trivial
      · intro hra; exact absurd hra (by simp)
  | acquireWriteEnter =>
      obtain ⟨⟨r, ra, wa, ww⟩, rh, wh⟩ := s
      simp only [AccInv, initWriteAccessEnter] at hs ⊢
      exact hs
  | acquireWriteComplete hw hq =>
      obtain ⟨⟨r, ra, wa, ww⟩, rh, wh⟩ := s
      simp only [AccInv, initWriteAccessBody] at hs ⊢
      simp only at hw hq
      obtain ⟨f, a, b, c, d, e⟩ := hs
      subst hw
      have hwh : wh = 0 := by
        rcases Nat.eq_zero_or_pos wh with h0 | h0
        · exact h0
        · exact absurd (c h0).2 (by simp)
      have hrd : r = 0 := by
        rcases Nat.eq_zero_or_pos r with h0 | h0
        · exact h0
        · exact absurd (d h0) (by simp)
      refine ⟨f, by omega, ?_, ?_, ?_, ?_⟩
      · intro _; exact hrd
      · intro _; exact ⟨trivial, trivial⟩
      · intro _; trivial
      · intro _; omega
  | releaseRead h =>
      obtain ⟨⟨r, ra, wa, ww⟩, rh, wh⟩ := s
      simp only [AccInv] at hs ⊢
      simp only at h
      obtain ⟨f, a, b, c, d, e⟩ := hs
      have hwh : wh = 0 := by
        rcases Nat.eq_zero_or_pos wh with h0 | h0
        · exact h0
        · exact absurd (b h0) (by omega)
      by_cases h0 : r - 1 = 0
      · have hd : dropReadAccess
            { readers := r, read_allowed := ra, write_allowed := wa, writers_waiting := ww } =
            { readers := r - 1, read_allowed := ra, write_allowed := true,
              writers_waiting := ww } := by
          simp [dropReadAccess, h0]
        rw [hd]
        refine ⟨?_, a, ?_, ?_, ?_, ?_⟩
        · show rh - 1 = r - 1
          omega
        · show 0 < wh → r - 1 = 0
          intro _; exact h0
        · show 0 < wh → ra = false ∧ (true : Bool) = false
          intro hw; exact absurd hw (by omega)
        · show 0 < r - 1 → (true : Bool) = false
          intro hp; exact absurd hp (by omega)
        · show ra = false → 0 < wh
          exact e
      · have hd : dropReadAccess
            { readers := r, read_allowed := ra, write_allowed := wa, writers_waiting := ww } =
            { readers := r - 1, read_allowed := ra, write_allowed := wa,
              writers_waiting := ww } := by
          simp [dropReadAccess, h0]
        rw [hd]
        refine ⟨?_, a, ?_, ?_, ?_, ?_⟩
        · show rh - 1 = r - 1
          omega
        · show 0 < wh → r - 1 = 0
          intro hw; exact absurd hw (by omega)
        · show 0 < wh → ra = false ∧ wa = false
          intro hw; exact absurd hw (by omega)
        · show 0 < r - 1 → wa = false
          intro _; exact d (by omega)
        · show ra = false → 0 < wh
          exact e
  | releaseWrite h =>
      obtain ⟨⟨r, ra, wa, ww⟩, rh, wh⟩ := s
      simp only [AccInv, dropWriteAccess] at hs ⊢
      simp only at h
      obtain ⟨f, a, b, c, d, e⟩ := hs
      have hrd : r = 0 := b h
      refine ⟨f, by omega, ?_, ?_, ?_, ?_⟩
      · intro _; exact hrd
      · intro hp; exact absurd hp (by omega)
      · intro hp; exact absurd hp (by omega)
      · intro hra; exact absurd hra (by simp)

theorem accInv_reachable {s : AccSys} (h : Reachable s) : AccInv s := by
  induction h with
  | init => exact accInv_init
  | step _ st ih => exact accInv_step ih st

/-- C1: for every sequence of acquire_read / acquire_write / release_read /
release_write operations on one storage starting from the initial Open state,
no reachable state has a holder of exclusive access coexisting with any other
holder: whenever a writer holds access, there are no shared holders and it is
the only exclusive holder. -/
theorem mutual_exclusion_of_reachable (s : AccSys) (hr : Reachable s)
    (hw : 0 < s.writerHolds) : s.readerHolds = 0 ∧ s.writerHolds = 1 := by
  obtain ⟨f, a, b, _c, _d, _e⟩ := accInv_reachable hr
  have := b hw
  omega

/-- Witness for C1: the state reached by acquire_write (enqueue, then
complete) from the initial state has one exclusive holder and no shared
holder. -/
theorem mutual_exclusion_of_reachable_witness :
    Reachable
      { acc := { readers := 0, read_allowed := false, write_allowed := false,
                 writers_waiting := 0 },
        readerHolds := 0, writerHolds := 1 } ∧
    (0 : Nat) < 1 ∧
    ((0 : Nat) = 0 ∧ (1 : Nat) = 1) := by
  have h1 : Reachable
      { acc := { readers := 0, read_allowed := false, write_allowed := false,
                 writers_waiting := 0 },
        readerHolds := 0, writerHolds := 1 } := by
    have h2 := Reachable.step Reachable.init (AccStep.acquireWriteEnter initSys)
    have h3 := Reachable.step h2
      (AccStep.acquireWriteComplete _ rfl (by decide))
    exact h3
  exact ⟨h1, by decide,
    mutual_exclusion_of_reachable _ h1 (by decide)⟩

/-- C2: invariants I1-I3 hold in every state reachable from the initial
state (readers = 0, read_allowed = true, write_allowed = true,
writers_waiting = 0): I1 — the two flags are never both false while
readers = 0 and no writer holds access; I2 — when a writer holds access both
flags are false; I3 — while readers > 0, write_allowed is false. -/
theorem accessor_invariants_of_reachable (s : AccSys) (hr : Reachable s) :
    (s.acc.readers = 0 → s.writerHolds = 0 →
      ¬(s.acc.read_allowed = false ∧ s.acc.write_allowed = false)) ∧
    (0 < s.writerHolds →
      s.acc.read_allowed = false ∧ s.acc.write_allowed = false) ∧
    (0 < s.acc.readers → s.acc.write_allowed = false) := by
  obtain ⟨_f, _a, _b, c, d, e⟩ := accInv_reachable hr
  refine ⟨?_, c, d⟩
  intro _ hwh hboth
  have := e hboth.1
  omega

/-- Witness for C2: the invariants instantiated at the initial state. -/
theorem accessor_invariants_of_reachable_witness :
    Reachable initSys ∧
    ((initSys.acc.readers = 0 → initSys.writerHolds = 0 →
        ¬(initSys.acc.read_allowed = false ∧ initSys.acc.write_allowed = false)) ∧
      (0 < initSys.writerHolds →
        initSys.acc.read_allowed = false ∧ initSys.acc.write_allowed = false) ∧
      (0 < initSys.acc.readers → initSys.acc.write_allowed = false)) :=
  ⟨Reachable.init, accessor_invariants_of_reachable initSys Reachable.init⟩

/-- C3: for both releases, the wake-up decision is a function of
`writers_waiting` in the post-release state: one blocked writer is woken via
`writer_cvar.notify_one()` when `writers_waiting > 0`, otherwise all blocked
readers are woken via `reader_cvar.notify_all()`; moreover neither release
changes `writers_waiting`, so the decision equally reflects the pre-release
count. -/
theorem release_wake_decision (s : AccessorState) :
    (dropReadAccessWake s).2 = wakeDecision (dropReadAccessWake s).1 ∧
    (dropWriteAccessWake s).2 = wakeDecision (dropWriteAccessWake s).1 ∧
    (dropReadAccessWake s).1.writers_waiting = s.writers_waiting ∧
    (dropWriteAccessWake s).1.writers_waiting = s.writers_waiting := by
  obtain ⟨r, ra, wa, ww⟩ := s
  refine ⟨rfl, rfl, ?_, rfl⟩
  by_cases h0 : r - 1 = 0 <;> simp [dropReadAccessWake, dropReadAccess, h0]

/-- C6: `drop_read_access` decrements `readers` by exactly one; when the
resulting count is zero it sets `write_allowed = true`, otherwise it leaves
`write_allowed` unchanged; and in all cases it leaves `read_allowed`
unchanged. -/
theorem drop_read_access_spec (s : AccessorState) (h : 0 < s.readers) :
    (dropReadAccess s).readers + 1 = s.readers ∧
    ((dropReadAccess s).readers = 0 → (dropReadAccess s).write_allowed = true) ∧
    ((dropReadAccess s).readers ≠ 0 →
      (dropReadAccess s).write_allowed = s.write_allowed) ∧
    (dropReadAccess s).read_allowed = s.read_allowed := by
  obtain ⟨r, ra, wa, ww⟩ := s
  simp only at h
  by_cases h0 : r - 1 = 0
  · have hd : dropReadAccess
        { readers := r, read_allowed := ra, write_allowed := wa, writers_waiting := ww } =
        { readers := r - 1, read_allowed := ra, write_allowed := true,
          writers_waiting := ww } := by
      simp [dropReadAccess, h0]
    rw [hd]
    refine ⟨?_, ?_, ?_, rfl⟩
    · show r - 1 + 1 = r
      omega
    · intro _; rfl
    · intro hne; exact absurd h0 hne
  · have hd : dropReadAccess
        { readers := r, read_allowed := ra, write_allowed := wa, writers_waiting := ww } =
        { readers := r - 1, read_allowed := ra, write_allowed := wa,
          writers_waiting := ww } := by
      simp [dropReadAccess, h0]
    rw [hd]
    refine ⟨?_, ?_, ?_, rfl⟩
    · show r - 1 + 1 = r
      omega
    · intro h1; exact absurd h1 h0
    · intro _; rfl

/-- Witness for C6: releasing the only reader (readers = 1) leaves 0 readers
and reopens write access. -/
theorem drop_read_access_spec_witness :
    (0 : Nat) <
      ({ readers := 1, read_allowed := true, write_allowed := false,
         writers_waiting := 0 } : AccessorState).readers ∧
    ((dropReadAccess
        { readers := 1, read_allowed := true, write_allowed := false,
          writers_waiting := 0 }).readers + 1 = 1 ∧
      ((dropReadAccess
          { readers := 1, read_allowed := true, write_allowed := false,
            writers_waiting := 0 }).readers = 0 →
        (dropReadAccess
          { readers := 1, read_allowed := true, write_allowed := false,
            writers_waiting := 0 }).write_allowed = true) ∧
      ((dropReadAccess
          { readers := 1, read_allowed := true, write_allowed := false,
            writers_waiting := 0 }).readers ≠ 0 →
        (dropReadAccess
          { readers := 1, read_allowed := true, write_allowed := false,
            writers_waiting := 0 }).write_allowed = false) ∧
      (dropReadAccess
        { readers := 1, read_allowed := true, write_allowed := false,
          writers_waiting := 0 }).read_allowed = true) :=
  ⟨by decide,
    drop_read_access_spec
      { readers := 1, read_allowed := true, write_allowed := false,
        writers_waiting := 0 } (by decide)⟩

/-- C7: `init_write_access` increments `writers_waiting` before blocking;
once the wait completes (which requires `write_allowed = true`) it sets both
flags to false and decrements `writers_waiting`, so a completed acquire_write
has net effect zero on `writers_waiting` and leaves both flags false. -/
theorem init_write_access_spec (s : AccessorState) (h : s.write_allowed = true) :
    (initWriteAccessEnter s).writers_waiting = s.writers_waiting + 1 ∧
    (initWriteAccessBody (initWriteAccessEnter s)).writers_waiting =
      s.writers_waiting ∧
    (initWriteAccessBody (initWriteAccessEnter s)).read_allowed = false ∧
    (initWriteAccessBody (initWriteAccessEnter s)).write_allowed = false := by
  obtain ⟨r, ra, wa, ww⟩ := s
  exact ⟨rfl, rfl, rfl, rfl⟩

/-- C4 (code bug witness): constructing a shared or exclusive guard leaves
the accessor state untouched — from the open state, `readers` stays 0 and
`write_allowed` stays true after construction — whereas the acquire
operations the constructors are documented to perform would leave
`readers = 1` (shared) resp. `write_allowed = false` (exclusive). The
guards' `Drop` impls nonetheless run the release logic, so dropping a shared
guard decrements `readers` from 0 (a `u16` underflow panic in the code). -/
theorem guard_new_performs_no_acquire :
    immutableStorageGuardNew initialAccessorState = initialAccessorState ∧
    mutableStorageGuardNew initialAccessorState = initialAccessorState ∧
    (immutableStorageGuardNew initialAccessorState).readers = 0 ∧
    (mutableStorageGuardNew initialAccessorState).write_allowed = true ∧
    (initReadAccessBody initialAccessorState).readers = 1 ∧
    (initWriteAccessBody (initWriteAccessEnter initialAccessorState)).write_allowed
      = false := by
  decide

/-- C5 (code bug witness): grow the registry-wide capacity from 0 to 2, then
check out the storage twice. The first checkout's catch-up step lengthens the
vec to 2 slots but bumps the capacity counter only to 1 (`fetch_add(1)`),
which is below the 2 allocated entity ids; because of that stale counter the
second checkout — with no intervening growth — lengthens the vec again, to 3
slots for 2 entities, so the addressable id range is not "all previously
valid ids plus k new ones". -/
theorem capacity_check_counter_lags :
    lazyLengthen 0 2 = 2 ∧
    capacityCheck 2 { slots := [], capacity := 0 } =
      some { slots := [none, none], capacity := 1 } ∧
    (1 : Nat) < 2 ∧
    capacityCheck 2 { slots := [none, none], capacity := 1 } =
      some { slots := [none, none, none], capacity := 2 } := by
  decide

theorem worldReachable_num_entities {w : WorldModel} (h : WorldReachable w) :
    w.entities.num_entities = 0 := by
  induction h with
  | init => rfl
  | create _ ih => exact ih
  | remove ent _ ih => exact ih
  | registerOk tid hr heq ih =>
      unfold registerComponent at heq
      split at heq
      · exact absurd heq (by simp)
      · injection heq with h1
        rw [← h1]
        exact ih
  | storagesChange ss _ ih => exact ih

/-- C8: in every world reachable through the API, `register_component`
panics exactly when the type id is already registered; otherwise it inserts
exactly one fresh storage under the type id, and that storage's slot count
equals the current entity count at registration time (both are zero: a fresh
storage has no slots, and `create_entity`'s bookkeeping is disabled). -/
theorem register_component_spec (w : WorldModel) (tid : Nat)
    (hw : WorldReachable w) :
    ((w.storages.lookup tid).isSome →
      registerComponent w tid =
        Except.error "attempted to register the same component type twice") ∧
    ((w.storages.lookup tid).isSome = false →
      registerComponent w tid =
        Except.ok { w with storages := (tid, storageNew) :: w.storages } ∧
      storageNew.length = w.entities.num_entities) := by
  constructor
  · intro hc
    simp only [registerComponent, hc, if_true, reduceIte]
  · intro hc
    refine ⟨?_, ?_⟩
    · simp only [registerComponent, hc, if_false, Bool.false_eq_true, reduceIte]
    · rw [worldReachable_num_entities hw]
      rfl

/-- Witness for C8: registering type id 7 in the fresh world. -/
theorem register_component_spec_witness :
    WorldReachable worldNew ∧
    (((worldNew.storages.lookup 7).isSome →
        registerComponent worldNew 7 =
          Except.error "attempted to register the same component type twice") ∧
      ((worldNew.storages.lookup 7).isSome = false →
        registerComponent worldNew 7 =
          Except.ok { worldNew with storages := (7, storageNew) :: worldNew.storages } ∧
        storageNew.length = worldNew.entities.num_entities)) :=
  ⟨WorldReachable.init, register_component_spec worldNew 7 WorldReachable.init⟩

/-- C10: `World::create_entity` returns id 0 on every call and leaves the
world — in particular the entity allocator — unchanged, while the entity
module's `new_entity_id` would hand out a recycled id (the popped tail of
`dead_entities`) or a fresh one (`num_entities`) and increment the
allocation count. -/
theorem create_entity_always_zero (w : WorldModel) (e : Entities) :
    createEntity w = (0, w) ∧
    (newEntityId e).1 =
      (match e.dead_entities.getLast? with
        | some id => id
        | none => e.num_entities) ∧
    (newEntityId e).2.num_entities = e.num_entities + 1 := by
  refine ⟨rfl, ?_, ?_⟩ <;>
    cases hL : e.dead_entities.getLast? <;>
    simp [newEntityId, getNextId, hL]

theorem lookup_filter_ne {α : Type} (m : List (Nat × α)) (ent : Nat) :
    (m.filter (fun p => p.1 != ent)).lookup ent = none := by
  induction m with
  | nil => rfl
  | cons p rest ih =>
      obtain ⟨k, b⟩ := p
      by_cases hp : k = ent
      · rw [List.filter_cons_of_neg]
        · exact ih
        · simp [hp]
      · rw [List.filter_cons_of_pos]
        · rw [List.lookup_cons]
          have hbe : (ent == k) = false := by
            simp [Ne.symm hp]
          rw [hbe]
          exact ih
        · simp [hp]

/-- C9: under an exclusive guard, `insert(id, v)` returns the prior value at
`id` and a subsequent `get(id)` returns `v`; `remove(id)` returns the prior
value and a subsequent `get(id)` returns nothing. -/
theorem insert_remove_round_trip {α : Type} (m : List (Nat × α)) (ent : Nat)
    (v : α) :
    (addComponent m ent v).1 = guardGet m ent ∧
    guardGet (addComponent m ent v).2 ent = some v ∧
    (rmComponent m ent).1 = guardGet m ent ∧
    guardGet (rmComponent m ent).2 ent = none := by
  refine ⟨rfl, ?_, rfl, ?_⟩
  · simp [addComponent, guardInsert, guardGet, List.lookup]
  · exact lookup_filter_ne m ent

/-- Witness for C7: a completed acquire_write from the initial open state. -/
theorem init_write_access_spec_witness :
    initialAccessorState.write_allowed = true ∧
    ((initWriteAccessEnter initialAccessorState).writers_waiting =
        initialAccessorState.writers_waiting + 1 ∧
      (initWriteAccessBody (initWriteAccessEnter initialAccessorState)).writers_waiting =
        initialAccessorState.writers_waiting ∧
      (initWriteAccessBody (initWriteAccessEnter initialAccessorState)).read_allowed =
        false ∧
      (initWriteAccessBody (initWriteAccessEnter initialAccessorState)).write_allowed =
        false) :=
  ⟨rfl, init_write_access_spec initialAccessorState rfl⟩

end EcsIt
